import Mathlib

/-!
Shallow embedding of the loan-default dashboard (`src/app.py`).

The app is a single Streamlit script.  The reusable core consists of
  * four loaders (`load_data`, `load_summary`, `load_default_rates`,
    `load_report`, lines 80-111), each swallowing exceptions into a
    sentinel; the primary dataset being absent stops the session
    (`st.stop()`, lines 118-119);
  * the filter pipeline (lines 152-165): `filtered_df = df.copy()`,
    an optional status filter, then one conjunctive boolean mask over
    `loan_amnt`, `credit_score` and `loan_intent`;
  * aggregations: row count, `filtered_df['loan_status'].mean()`,
    `filtered_df.groupby('loan_intent')['loan_status'].mean()`
    (pandas `groupby` sorts the group keys, its default `sort=True`).

Numbers are modelled as rationals; a pandas `NaN` result (mean of an
empty column) is modelled as `Option.none`.  Records carry exactly the
columns the script touches.
-/

namespace LoanDashboard

/-- One row of `loan_data_cleaned.parquet`, with the columns the script
reads.  `loan_status` is 1 for default, 0 for non-default. -/
structure Record where
  person_age : ℚ
  person_income : ℚ
  person_education : String
  loan_amnt : ℚ
  loan_int_rate : ℚ
  credit_score : ℚ
  loan_intent : String
  loan_status : ℚ
deriving DecidableEq, Repr

/-- The primary dataset: an ordered list of records (a dataframe's rows). -/
abbrev Dataset := List Record

/-- The `Loan Status` selectbox choice (line 129). -/
inductive StatusChoice where
  | all
  | defaultsOnly
  | nonDefaultsOnly
deriving DecidableEq, Repr

/-- The filter state collected from the sidebar widgets (lines 129-138):
status choice, inclusive loan-amount range, inclusive credit-score range,
and the multiselect list of loan purposes. -/
structure FilterCriteria where
  status : StatusChoice
  amountRange : ℚ × ℚ
  creditRange : ℚ × ℚ
  purposes : List String
deriving DecidableEq, Repr

/-- The status mask of lines 154-157: `loan_status == 1` for
"Defaults Only", `loan_status == 0` for "Non-Defaults Only". -/
def statusMask (s : StatusChoice) (r : Record) : Bool :=
  match s with
  | .all => true
  | .defaultsOnly => decide (r.loan_status = 1)
  | .nonDefaultsOnly => decide (r.loan_status = 0)

/-- The conjunctive boolean mask of lines 159-165: both range bounds are
inclusive and `loan_intent` must be in the selected purposes (`isin`). -/
def rangeAndPurposeMask (c : FilterCriteria) (r : Record) : Bool :=
  decide (c.amountRange.1 ≤ r.loan_amnt) && decide (r.loan_amnt ≤ c.amountRange.2) &&
  decide (c.creditRange.1 ≤ r.credit_score) && decide (r.credit_score ≤ c.creditRange.2) &&
  decide (r.loan_intent ∈ c.purposes)

/-- The filter pipeline of lines 152-165: start from a copy of `df`,
apply the status filter, then the combined range/purpose mask. -/
def applyFilters (df : Dataset) (c : FilterCriteria) : Dataset :=
  let filtered := df
  let filtered :=
    match c.status with
    | .all => filtered
    | .defaultsOnly => filtered.filter (statusMask .defaultsOnly)
    | .nonDefaultsOnly => filtered.filter (statusMask .nonDefaultsOnly)
  filtered.filter (rangeAndPurposeMask c)

/-- Pandas `Series.mean`: `NaN` (here `none`) on an empty column,
otherwise the sum divided by the length. -/
def meanQ (l : List ℚ) : Option ℚ :=
  if l.isEmpty then none else some (l.sum / (l.length : ℚ))

/-- `filtered_df['loan_status'].mean()` (line 183 and elsewhere). -/
def meanOutcomeRate (view : Dataset) : Option ℚ :=
  meanQ (view.map Record.loan_status)

/-- Mean of an arbitrary numeric column of a view. -/
def meanOf (view : Dataset) (f : Record → ℚ) : Option ℚ :=
  meanQ (view.map f)

/-- The Default Rate KPI card (lines 180-186) interpolates
`filtered_df['loan_status'].mean()*100` straight into its HTML with no
emptiness check; Python renders the float `nan` as the text "nan".  The
exact one-decimal rounding of a finite value is abstracted to an exact
rendering; the `NaN` branch is the one the script hits on an empty view. -/
def kpiDefaultRateText (view : Dataset) : String :=
  match meanOutcomeRate view with
  | none => "nan%"
  | some q => toString (q * 100) ++ "%"

/-- One step of building a first-seen-order list of distinct values. -/
def seenInsert (acc : List String) (x : String) : List String :=
  if x ∈ acc then acc else acc ++ [x]

/-- `df['loan_intent'].unique()` (line 137): the distinct values in
first-seen order. -/
def uniqueFS (l : List String) : List String :=
  l.foldl seenInsert []

/-- Lexicographic order on strings as lists of characters; this is the
order pandas sorts string group keys by. -/
def strLe (a b : String) : Prop :=
  a.data ≤ b.data

instance : DecidableRel strLe :=
  fun a b => inferInstanceAs (Decidable (a.data ≤ b.data))

instance : IsTotal String strLe :=
  ⟨fun a b => le_total a.data b.data⟩

instance : IsTrans String strLe :=
  ⟨fun _ _ _ h1 h2 => le_trans h1 h2⟩

/-- The rows of a view in one `loan_intent` group. -/
def groupRows (view : Dataset) (k : String) : Dataset :=
  view.filter (fun r => decide (r.loan_intent = k))

/-- The group keys of `filtered_df.groupby('loan_intent')`: the distinct
values present, sorted (pandas `groupby` default `sort=True`). -/
def groupKeys (view : Dataset) : List String :=
  List.insertionSort strLe (uniqueFS (view.map Record.loan_intent))

/-- `filtered_df.groupby('loan_intent')['loan_status'].mean()`
(line 219, before the `* 100`): for each group key, the mean
`loan_status` of its rows.  Groups are built from values present in the
view, so no key has an empty group. -/
def groupedMeanOutcome (view : Dataset) : List (String × ℚ) :=
  (groupKeys view).filterMap fun k =>
    (meanQ ((groupRows view k).map Record.loan_status)).map fun m => (k, m)

/-- The chart series `default_by_purpose` of line 219 (grouped mean times
100). -/
def default_by_purpose (view : Dataset) : List (String × ℚ) :=
  (groupedMeanOutcome view).map fun kv => (kv.1, kv.2 * 100)

/-- `load_data` (lines 80-89): the primary parquet read; any exception
becomes the sentinel `None`.  The read itself is passed in as an
`Except` value. -/
def load_data (read : Except String Dataset) : Option Dataset :=
  match read with
  | .ok d => some d
  | .error _ => none

/-- `load_summary` (lines 91-96): auxiliary summary table, `None` on any
exception. -/
def load_summary (read : Except String (List (List String))) :
    Option (List (List String)) :=
  match read with
  | .ok t => some t
  | .error _ => none

/-- `load_default_rates` (lines 98-103): the per-purpose default-rate CSV,
`None` on any exception. -/
def load_default_rates (read : Except String (List (String × ℚ))) :
    Option (List (String × ℚ)) :=
  match read with
  | .ok t => some t
  | .error _ => none

/-- `load_report` (lines 105-111): the report text; on any exception the
fallback STRING "Analysis report not found." is returned, not `None`. -/
def load_report (read : Except String String) : String :=
  match read with
  | .ok s => s
  | .error _ => "Analysis report not found."

/-- Column order of the modelled dataframe, used for the CSV export. -/
def csvHeader : String :=
  "person_age,person_income,person_education,loan_amnt,loan_int_rate,credit_score,loan_intent,loan_status"

/-- One CSV row of a record, in the header's column order. -/
def recordCsvRow (r : Record) : String :=
  String.intercalate ","
    [toString r.person_age, toString r.person_income, r.person_education,
     toString r.loan_amnt, toString r.loan_int_rate, toString r.credit_score,
     r.loan_intent, toString r.loan_status]

/-- `df.to_csv(index=False)` (line 281): header row then one row per
record, original order. -/
def toCsv (df : Dataset) : String :=
  String.intercalate "\n" (csvHeader :: df.map recordCsvRow)

/-- `len(df.columns)` (line 144): the modelled schema has 8 columns. -/
def columnCount : Nat := 8

/-- The Key Insights values of lines 339-345, in order: overall default
rate in percent, total loans, average interest rate, average credit
score, average loan amount.  All are computed from `df`, the full
dataset. -/
def keyInsights (df : Dataset) : List (Option ℚ) :=
  [(meanOutcomeRate df).map (fun q => q * 100),
   some (df.length : ℚ),
   meanOf df Record.loan_int_rate,
   meanOf df Record.credit_score,
   meanOf df Record.loan_amnt]

/-- Everything one script run shows or offers for download, computed from
the loaded artifacts, the current wall-clock text and the filter state. -/
structure SessionOutputs where
  sidebarTotalRecords : Nat
  sidebarColumnCount : Nat
  sidebarDefaultRatePct : Option ℚ
  sidebarLastUpdated : String
  kpiTotalLoans : Nat
  kpiDefaultRate : String
  chartDefaultByPurpose : List (String × ℚ)
  keyInsightValues : List (Option ℚ)
  downloadCleaned : String
  downloadReport : String
  summaryShown : Option (List (List String))
  ratesShown : Option (List (String × ℚ))
deriving Repr

/-- One script run after a successful primary load: the sidebar Data Info
(lines 142-147), the KPI cards (lines 170-202), the grouped chart
(line 219), the downloads (lines 278-304) and the Key Insights
(lines 339-345). -/
def mkOutputs (df : Dataset) (summary : Option (List (List String)))
    (rates : Option (List (String × ℚ))) (report : String)
    (now : String) (c : FilterCriteria) : SessionOutputs :=
  let filtered := applyFilters df c
  { sidebarTotalRecords := df.length
    sidebarColumnCount := columnCount
    sidebarDefaultRatePct := (meanOutcomeRate df).map (fun q => q * 100)
    sidebarLastUpdated := now
    kpiTotalLoans := filtered.length
    kpiDefaultRate := kpiDefaultRateText filtered
    chartDefaultByPurpose := default_by_purpose filtered
    keyInsightValues := keyInsights df
    downloadCleaned := toCsv df
    downloadReport := report
    summaryShown := summary
    ratesShown := rates }

/-- The whole script (lines 113-348): load the four artifacts, stop the
session (`st.stop()`) when the primary dataset is absent, otherwise
proceed with whatever auxiliary artifacts loaded. -/
def runSession (dataRead : Except String Dataset)
    (summaryRead : Except String (List (List String)))
    (ratesRead : Except String (List (String × ℚ)))
    (reportRead : Except String String)
    (now : String) (c : FilterCriteria) : Option SessionOutputs :=
  match load_data dataRead with
  | none => none
  | some df =>
      some (mkOutputs df (load_summary summaryRead)
        (load_default_rates ratesRead) (load_report reportRead) now c)

/-- The two dataframe variables live across lines 152-165. -/
structure FilterScriptState where
  df : Dataset
  filtered : Dataset
deriving Repr

/-- Lines 152-165 as state transitions: `filtered_df = df.copy()`, the
status branch, then the mask assignment.  `df` is only ever read. -/
def runFilterScript (c : FilterCriteria) (s : FilterScriptState) :
    FilterScriptState :=
  let s1 : FilterScriptState := { s with filtered := s.df }
  let s2 : FilterScriptState :=
    match c.status with
    | .all => s1
    | .defaultsOnly => { s1 with filtered := s1.filtered.filter (statusMask .defaultsOnly) }
    | .nonDefaultsOnly => { s1 with filtered := s1.filtered.filter (statusMask .nonDefaultsOnly) }
  { s2 with filtered := s2.filtered.filter (rangeAndPurposeMask c) }

/-- Column minimum, as `df[col].min()` on line 131/134 (0 on an empty
dataset, which the script never reaches because loading succeeded). -/
def colMin (f : Record → ℚ) : Dataset → ℚ
  | [] => 0
  | r :: rs => rs.foldl (fun m x => min m (f x)) (f r)

/-- Column maximum, as `df[col].max()` on line 131/134. -/
def colMax (f : Record → ℚ) : Dataset → ℚ
  | [] => 0
  | r :: rs => rs.foldl (fun m x => max m (f x)) (f r)

/-- The all-open criteria: status "All", both ranges at the full data
bounds, every purpose present selected (the widgets' defaults,
lines 129-138). -/
def allOpenCriteria (df : Dataset) : FilterCriteria :=
  { status := .all
    amountRange := (colMin Record.loan_amnt df, colMax Record.loan_amnt df)
    creditRange := (colMin Record.credit_score df, colMax Record.credit_score df)
    purposes := uniqueFS (df.map Record.loan_intent) }

/-- The row predicate of the spec, as a proposition: the conjunction of
the status predicate, both inclusive ranges and purpose membership. -/
def rowPasses (c : FilterCriteria) (r : Record) : Prop :=
  (match c.status with
   | .all => True
   | .defaultsOnly => r.loan_status = 1
   | .nonDefaultsOnly => r.loan_status = 0) ∧
  c.amountRange.1 ≤ r.loan_amnt ∧ r.loan_amnt ≤ c.amountRange.2 ∧
  c.creditRange.1 ≤ r.credit_score ∧ r.credit_score ≤ c.creditRange.2 ∧
  r.loan_intent ∈ c.purposes

/-! ### Helper lemmas -/

theorem foldl_seenInsert_mem (l : List String) :
    ∀ (acc : List String) (x : String), (x ∈ acc ∨ x ∈ l) →
      x ∈ l.foldl seenInsert acc := by
  induction l with
  | nil =>
    intro acc x h
    simpa using h.resolve_right (by simp)
  | cons a as ih =>
    intro acc x h
    simp only [List.foldl_cons]
    apply ih
    rcases h with h | h
    · left
      unfold seenInsert
      split
      · exact h
      · exact List.mem_append_left _ h
    · rcases List.mem_cons.mp h with rfl | h
      · left
        unfold seenInsert
        split
        next hmem => exact hmem
        · exact List.mem_append_right _ (List.mem_singleton.mpr rfl)
      · right; exact h

theorem mem_uniqueFS {x : String} {l : List String} (h : x ∈ l) : x ∈ uniqueFS l :=
  foldl_seenInsert_mem l [] x (Or.inr h)

theorem foldl_seenInsert_subset (l : List String) :
    ∀ (acc : List String) (x : String), x ∈ l.foldl seenInsert acc →
      x ∈ acc ∨ x ∈ l := by
  induction l with
  | nil =>
    intro acc x h
    exact Or.inl (by simpa using h)
  | cons a as ih =>
    intro acc x h
    simp only [List.foldl_cons] at h
    rcases ih _ x h with h | h
    · unfold seenInsert at h
      split at h
      · exact Or.inl h
      · rcases List.mem_append.mp h with h | h
        · exact Or.inl h
        · right
          simp only [List.mem_singleton] at h
          simp [h]
    · right
      exact List.mem_cons_of_mem a h

theorem uniqueFS_subset {x : String} {l : List String} (h : x ∈ uniqueFS l) :
    x ∈ l :=
  (foldl_seenInsert_subset l [] x h).resolve_left (by simp)

theorem foldl_seenInsert_nodup (l : List String) :
    ∀ acc : List String, acc.Nodup → (l.foldl seenInsert acc).Nodup := by
  induction l with
  | nil =>
    intro acc h
    simpa using h
  | cons a as ih =>
    intro acc h
    simp only [List.foldl_cons]
    apply ih
    unfold seenInsert
    split
    · exact h
    next hna =>
      rw [← List.concat_eq_append]
      exact List.Nodup.concat hna h

theorem uniqueFS_nodup (l : List String) : (uniqueFS l).Nodup :=
  foldl_seenInsert_nodup l [] List.nodup_nil

theorem foldl_min_le_init (f : Record → ℚ) :
    ∀ (l : List Record) (init : ℚ),
      l.foldl (fun m x => min m (f x)) init ≤ init := by
  intro l
  induction l with
  | nil => intro init; simp
  | cons a as ih =>
    intro init
    exact le_trans (ih _) (min_le_left _ _)

theorem foldl_min_le_mem (f : Record → ℚ) :
    ∀ (l : List Record) (init : ℚ) (r : Record), r ∈ l →
      l.foldl (fun m x => min m (f x)) init ≤ f r := by
  intro l
  induction l with
  | nil => intro init r h; simp at h
  | cons a as ih =>
    intro init r h
    rcases List.mem_cons.mp h with rfl | h
    · exact le_trans (foldl_min_le_init f as _) (min_le_right _ _)
    · exact ih _ r h

theorem colMin_le (f : Record → ℚ) (d : Dataset) (r : Record) (h : r ∈ d) :
    colMin f d ≤ f r := by
  cases d with
  | nil => simp at h
  | cons a as =>
    rcases List.mem_cons.mp h with rfl | h
    · exact foldl_min_le_init f as (f r)
    · exact foldl_min_le_mem f as (f a) r h

theorem init_le_foldl_max (f : Record → ℚ) :
    ∀ (l : List Record) (init : ℚ),
      init ≤ l.foldl (fun m x => max m (f x)) init := by
  intro l
  induction l with
  | nil => intro init; simp
  | cons a as ih =>
    intro init
    exact le_trans (le_max_left _ _) (ih _)

theorem mem_le_foldl_max (f : Record → ℚ) :
    ∀ (l : List Record) (init : ℚ) (r : Record), r ∈ l →
      f r ≤ l.foldl (fun m x => max m (f x)) init := by
  intro l
  induction l with
  | nil => intro init r h; simp at h
  | cons a as ih =>
    intro init r h
    rcases List.mem_cons.mp h with rfl | h
    · exact le_trans (le_max_right _ _) (init_le_foldl_max f as _)
    · exact ih _ r h

theorem le_colMax (f : Record → ℚ) (d : Dataset) (r : Record) (h : r ∈ d) :
    f r ≤ colMax f d := by
  cases d with
  | nil => simp at h
  | cons a as =>
    rcases List.mem_cons.mp h with rfl | h
    · exact init_le_foldl_max f as (f r)
    · exact mem_le_foldl_max f as (f a) r h

theorem sum_bounds (l : List ℚ) (h : ∀ x ∈ l, x = 0 ∨ x = 1) :
    0 ≤ l.sum ∧ l.sum ≤ (l.length : ℚ) := by
  induction l with
  | nil => simp
  | cons a as ih =>
    obtain ⟨h0, h1⟩ := ih (fun x hx => h x (List.mem_cons_of_mem a hx))
    have ha := h a (List.mem_cons_self a as)
    simp only [List.sum_cons, List.length_cons]
    push_cast
    rcases ha with rfl | rfl <;> constructor <;> linarith

theorem meanQ_eq_none_iff (l : List ℚ) : meanQ l = none ↔ l = [] := by
  unfold meanQ
  split
  next h => simpa using List.isEmpty_iff.mp h
  next h =>
    simp only [reduceCtorEq, false_iff]
    intro hnil
    exact h (by simp [hnil])

theorem meanQ_bounds (l : List ℚ) (m : ℚ) (hm : meanQ l = some m)
    (h : ∀ x ∈ l, x = 0 ∨ x = 1) : 0 ≤ m ∧ m ≤ 1 := by
  unfold meanQ at hm
  split at hm
  · exact absurd hm (by simp)
  next hne =>
    obtain ⟨h0, h1⟩ := sum_bounds l h
    have hlen : 0 < (l.length : ℚ) := by
      have hni : l ≠ [] := fun hc => hne (by simp [hc])
      exact_mod_cast List.length_pos.mpr hni
    have hm2 : l.sum / (l.length : ℚ) = m := by simpa using hm
    subst hm2
    exact ⟨div_nonneg h0 (le_of_lt hlen), (div_le_one hlen).mpr h1⟩

theorem mapfst_filterMap_sublist (g : String → Option ℚ) :
    ∀ ks : List String,
      ((ks.filterMap fun k => (g k).map fun m => (k, m)).map Prod.fst).Sublist ks := by
  intro ks
  induction ks with
  | nil => simp
  | cons k ks ih =>
    simp only [List.filterMap_cons]
    cases hg : g k with
    | none => simpa using ih.cons k
    | some m => simpa using ih.cons₂ k

/-! ### Concrete data for witnesses and counterexamples -/

/-- A record with fixed auxiliary fields, for concrete test data. -/
def mkRec (intent : String) (amnt credit status : ℚ) : Record :=
  { person_age := 30, person_income := 50000, person_education := "Bachelor",
    loan_amnt := amnt, loan_int_rate := 10, credit_score := credit,
    loan_intent := intent, loan_status := status }

/-! ### Claims -/

/-- C1: the filtered view consists of exactly the rows of the dataset that
satisfy the conjunction of the four predicates (status, inclusive amount
range, inclusive credit range, purpose membership): the pipeline equals a
single filter by the conjoined mask, and a row is in the view iff it is in
the dataset and satisfies every predicate. -/
theorem filtered_view_is_strict_conjunction (d : Dataset) (c : FilterCriteria) :
    applyFilters d c =
      d.filter (fun r => statusMask c.status r && rangeAndPurposeMask c r) ∧
    ∀ r : Record, r ∈ applyFilters d c ↔ r ∈ d ∧ rowPasses c r := by
  have hfil : applyFilters d c =
      d.filter (fun r => statusMask c.status r && rangeAndPurposeMask c r) := by
    unfold applyFilters
    cases c.status with
    | all => simp [statusMask]
    | defaultsOnly =>
      rw [List.filter_filter]
      congr 1
      funext r
      rw [Bool.and_comm]
    | nonDefaultsOnly =>
      rw [List.filter_filter]
      congr 1
      funext r
      rw [Bool.and_comm]
  refine ⟨hfil, fun r => ?_⟩
  rw [hfil, List.mem_filter]
  unfold rowPasses rangeAndPurposeMask statusMask
  cases c.status <;> simp [and_assoc]

/-- C3 (amended): the mean outcome rate is `NaN` (modelled `none`) exactly
on the empty view — never a silent 0 — but the Default Rate KPI does not
handle the empty view explicitly: it renders the undefined value as
"nan%". -/
theorem meanOutcomeRate_empty_nan_rendered :
    (∀ view : Dataset, meanOutcomeRate view = none ↔ view = []) ∧
    kpiDefaultRateText [] = "nan%" := by
  constructor
  · intro view
    unfold meanOutcomeRate
    rw [meanQ_eq_none_iff]
    simp
  · rfl

/-- C3 counterexample: on the empty view the mean is indeed undefined, yet
the KPI display pipes it straight into the page as "nan%", refuting that
the caller handles the empty case explicitly instead of rendering the
undefined value. -/
theorem kpi_renders_undefined_on_empty :
    meanOutcomeRate ([] : Dataset) = none ∧
    kpiDefaultRateText ([] : Dataset) = "nan%" :=
  ⟨rfl, rfl⟩

/-- C4: criteria whose amount range or credit range has `min > max` yield
an empty view (the two inclusive masks are unsatisfiable) and the filter
is a total function, so no error is raised. -/
theorem inverted_range_yields_empty (d : Dataset) (c : FilterCriteria)
    (h : c.amountRange.2 < c.amountRange.1 ∨ c.creditRange.2 < c.creditRange.1) :
    applyFilters d c = [] := by
  simp only [applyFilters]
  apply List.filter_eq_nil_iff.mpr
  intro r _
  simp only [rangeAndPurposeMask, Bool.and_eq_true, decide_eq_true_eq, not_and]
  intro h1 _
  obtain ⟨⟨⟨ha1, ha2⟩, hc1⟩, hc2⟩ := h1
  rcases h with hh | hh
  · exact absurd (le_trans ha1 ha2) (not_le.mpr hh)
  · exact absurd (le_trans hc1 hc2) (not_le.mpr hh)

/-- Dataset for the C4 witness. -/
def c4Df : Dataset := [mkRec "PERSONAL" 8000 700 0]

/-- Criteria with an inverted amount range for the C4 witness. -/
def c4Crit : FilterCriteria :=
  { status := .all, amountRange := (10, 5), creditRange := (300, 850),
    purposes := ["PERSONAL"] }

/-- C4 witness: a one-row dataset and an inverted amount range produce the
empty view. -/
theorem inverted_range_yields_empty_witness :
    (c4Crit.amountRange.2 < c4Crit.amountRange.1 ∨
      c4Crit.creditRange.2 < c4Crit.creditRange.1) ∧
    applyFilters c4Df c4Crit = [] :=
  ⟨by decide, inverted_range_yields_empty c4Df c4Crit (by decide)⟩

/-- C5 counterexample: the report loader does not return an Absent
sentinel on failure — it returns the plain fallback string
"Analysis report not found.", indistinguishable from a successfully
loaded report with that exact content. -/
theorem load_report_failure_not_absent :
    load_report (Except.error "boom") = "Analysis report not found." ∧
    load_report (Except.ok "Analysis report not found.") =
      load_report (Except.error "boom") :=
  ⟨rfl, rfl⟩

/-- C5 (amended): the data, summary and default-rate loaders return the
Absent sentinel (`none`) on any failure; the report loader instead returns
the fallback string "Analysis report not found.".  A failed primary load
is fatal (the session stops and produces nothing); failures of all three
auxiliary artifacts are non-fatal and the session still produces the full
load/filter/aggregate outputs from the primary dataset. -/
theorem loader_failure_policy :
    (∀ e, load_data (Except.error e) = none) ∧
    (∀ e, load_summary (Except.error e) = none) ∧
    (∀ e, load_default_rates (Except.error e) = none) ∧
    (∀ e, load_report (Except.error e) = "Analysis report not found.") ∧
    (∀ e sR rR pR now c, runSession (Except.error e) sR rR pR now c = none) ∧
    (∀ d e1 e2 e3 now c,
      runSession (Except.ok d) (Except.error e1) (Except.error e2)
          (Except.error e3) now c =
        some (mkOutputs d none none "Analysis report not found." now c)) :=
  ⟨fun _ => rfl, fun _ => rfl, fun _ => rfl, fun _ => rfl,
   fun _ _ _ _ _ _ => rfl, fun _ _ _ _ _ _ => rfl⟩

/-- C6: an empty purposes selection yields an empty view for every dataset,
status choice and pair of ranges, because `isin` over an empty set rejects
every row. -/
theorem empty_purposes_empty_view (d : Dataset) (s : StatusChoice)
    (ar cr : ℚ × ℚ) :
    applyFilters d ⟨s, ar, cr, []⟩ = [] := by
  simp only [applyFilters]
  apply List.filter_eq_nil_iff.mpr
  intro r _
  simp [rangeAndPurposeMask]

/-- C2 counterexample view: purposes first seen in the order "b", "a". -/
def c2OrderView : Dataset :=
  [mkRec "b" 1000 700 1, mkRec "a" 2000 710 0]

/-- C2 counterexample: the grouped mean's keys come out in sorted order
("a" before "b"), not in the first-seen order of the view ("b" before
"a"), because pandas `groupby` sorts its keys by default. -/
theorem grouped_keys_sorted_not_first_seen :
    (groupedMeanOutcome c2OrderView).map Prod.fst = ["a", "b"] ∧
    uniqueFS (c2OrderView.map Record.loan_intent) = ["b", "a"] ∧
    (groupedMeanOutcome c2OrderView).map Prod.fst ≠
      uniqueFS (c2OrderView.map Record.loan_intent) := by
  refine ⟨by decide, by decide, by decide⟩

/-- C2 (amended): the grouped mean outcome has one entry per distinct
`loan_intent` value present in the view and no others (no zero-row
categories), every value lies in [0,1] when outcomes are 0/1, and the
keys are distinct and appear in sorted order (pandas `groupby` default),
not first-seen order. -/
theorem groupedMeanOutcome_keys_and_bounds (view : Dataset)
    (hinv : ∀ r ∈ view, r.loan_status = 0 ∨ r.loan_status = 1) :
    (∀ kv ∈ groupedMeanOutcome view,
        kv.1 ∈ view.map Record.loan_intent ∧ 0 ≤ kv.2 ∧ kv.2 ≤ 1) ∧
    (∀ k ∈ view.map Record.loan_intent,
        k ∈ (groupedMeanOutcome view).map Prod.fst) ∧
    ((groupedMeanOutcome view).map Prod.fst).Nodup ∧
    ((groupedMeanOutcome view).map Prod.fst).Sorted strLe := by
  have hsub := mapfst_filterMap_sublist
    (fun k => meanQ ((groupRows view k).map Record.loan_status)) (groupKeys view)
  refine ⟨?_, ?_, ?_, ?_⟩
  · intro kv hkv
    obtain ⟨k, hk, hsome⟩ := List.mem_filterMap.mp hkv
    cases hmean : meanQ ((groupRows view k).map Record.loan_status) with
    | none => rw [hmean] at hsome; simp at hsome
    | some m =>
      rw [hmean] at hsome
      simp only [Option.map_some', Option.some.injEq] at hsome
      subst hsome
      refine ⟨?_, ?_⟩
      · exact uniqueFS_subset ((List.mem_insertionSort strLe).mp hk)
      · refine meanQ_bounds _ m hmean ?_
        intro x hx
        obtain ⟨r, hr, rfl⟩ := List.mem_map.mp hx
        exact hinv r (List.mem_of_mem_filter hr)
  · intro k hk
    have hk1 : k ∈ groupKeys view :=
      (List.mem_insertionSort strLe).mpr (mem_uniqueFS hk)
    obtain ⟨r, hr, hrk⟩ := List.mem_map.mp hk
    have hrg : r ∈ groupRows view k :=
      List.mem_filter.mpr ⟨hr, by simp [hrk]⟩
    have hne : (groupRows view k).map Record.loan_status ≠ [] := by
      simp only [ne_eq, List.map_eq_nil_iff]
      intro hnil
      rw [hnil] at hrg
      simp at hrg
    obtain ⟨m, hm⟩ : ∃ m, meanQ ((groupRows view k).map Record.loan_status) = some m := by
      unfold meanQ
      rw [if_neg (by simpa using hne)]
      exact ⟨_, rfl⟩
    have hkm : (k, m) ∈ groupedMeanOutcome view :=
      List.mem_filterMap.mpr ⟨k, hk1, by rw [hm]; rfl⟩
    exact List.mem_map.mpr ⟨(k, m), hkm, rfl⟩
  · have hkeys : (groupKeys view).Nodup := by
      unfold groupKeys
      exact (List.perm_insertionSort strLe _).nodup_iff.mpr (uniqueFS_nodup _)
    exact hkeys.sublist hsub
  · have hkeys : (groupKeys view).Sorted strLe := List.sorted_insertionSort strLe _
    exact hkeys.sublist hsub

/-- C2 witness view: two purposes, outcomes all 0 or 1. -/
def c2WitnessView : Dataset :=
  [mkRec "home" 5000 700 1, mkRec "auto" 3000 650 0, mkRec "home" 7000 720 0]

/-- C2 witness: the amended grouped-mean properties hold on a concrete
three-row view with 0/1 outcomes. -/
theorem groupedMeanOutcome_keys_and_bounds_witness :
    (∀ r ∈ c2WitnessView, r.loan_status = 0 ∨ r.loan_status = 1) ∧
    ((∀ kv ∈ groupedMeanOutcome c2WitnessView,
        kv.1 ∈ c2WitnessView.map Record.loan_intent ∧ 0 ≤ kv.2 ∧ kv.2 ≤ 1) ∧
     (∀ k ∈ c2WitnessView.map Record.loan_intent,
        k ∈ (groupedMeanOutcome c2WitnessView).map Prod.fst) ∧
     ((groupedMeanOutcome c2WitnessView).map Prod.fst).Nodup ∧
     ((groupedMeanOutcome c2WitnessView).map Prod.fst).Sorted strLe) :=
  ⟨by decide, groupedMeanOutcome_keys_and_bounds c2WitnessView (by decide)⟩

/-- C7: the all-open criteria (status "All", ranges at the full data
bounds, all purposes present selected) return the full dataset with its
original row order. -/
theorem all_open_returns_full_dataset (d : Dataset) :
    applyFilters d (allOpenCriteria d) = d := by
  simp only [applyFilters, allOpenCriteria]
  apply List.filter_eq_self.mpr
  intro r hr
  simp only [rangeAndPurposeMask, Bool.and_eq_true, decide_eq_true_eq]
  refine ⟨⟨⟨⟨?_, ?_⟩, ?_⟩, ?_⟩, ?_⟩
  · exact colMin_le Record.loan_amnt d r hr
  · exact le_colMax Record.loan_amnt d r hr
  · exact colMin_le Record.credit_score d r hr
  · exact le_colMax Record.credit_score d r hr
  · exact mem_uniqueFS (List.mem_map_of_mem Record.loan_intent hr)

/-- The five-record dataset of the C8 scenario: credit scores 600..800 in
steps of 50, outcomes [1,0,1,0,0]. -/
def c8Df : Dataset :=
  [mkRec "PERSONAL" 10000 600 1, mkRec "PERSONAL" 10000 650 0,
   mkRec "PERSONAL" 10000 700 1, mkRec "PERSONAL" 10000 750 0,
   mkRec "PERSONAL" 10000 800 0]

/-- The C8 criteria: status "All", credit range [650,800], amount range at
the data bounds, all purposes present selected. -/
def c8Criteria : FilterCriteria :=
  { status := .all, amountRange := (10000, 10000), creditRange := (650, 800),
    purposes := ["PERSONAL"] }

/-- C8: on the five-record scenario with credit range [650,800] the view
has 4 rows and mean outcome rate 1/4 = 0.25. -/
theorem credit_scenario_count_and_rate :
    (applyFilters c8Df c8Criteria).length = 4 ∧
    meanOutcomeRate (applyFilters c8Df c8Criteria) = some (1/4) := by
  have h : applyFilters c8Df c8Criteria =
      [mkRec "PERSONAL" 10000 650 0, mkRec "PERSONAL" 10000 700 1,
       mkRec "PERSONAL" 10000 750 0, mkRec "PERSONAL" 10000 800 0] := by
    decide
  rw [h]
  refine ⟨rfl, ?_⟩
  simp only [meanOutcomeRate, meanQ, mkRec, List.map_cons, List.map_nil,
    List.isEmpty_cons, List.sum_cons, List.sum_nil, List.length_cons,
    List.length_nil, if_false, Option.some.injEq]
  norm_num

/-- C9: the filter script never mutates the source dataframe: after
lines 152-165 run, `df` is unchanged and `filtered_df` holds exactly the
filter pipeline's result computed from it. -/
theorem filter_script_preserves_source (c : FilterCriteria)
    (s : FilterScriptState) :
    (runFilterScript c s).df = s.df ∧
    (runFilterScript c s).filtered = applyFilters s.df c := by
  obtain ⟨st, ar, cr, ps⟩ := c
  cases st <;> exact ⟨rfl, rfl⟩

/-- A one-row dataset for the C10 counterexample. -/
def c10Df : Dataset := [mkRec "PERSONAL" 10000 700 0]

/-- C10 counterexample: the Key Insights list has five values (overall
default rate, total loans, average interest rate, average credit score,
average loan amount), not four as the claim states. -/
theorem key_insights_has_five_values :
    (keyInsights c10Df).length = 5 ∧ (keyInsights c10Df).length ≠ 4 := by
  exact ⟨rfl, by decide⟩

/-- C10 (amended): the sidebar Data Info metrics, the five Key Insights
values and the Download Cleaned Data content are computed from the full
loaded dataset: for any two filter criteria over the same loaded
artifacts (at the same rendering instant) those outputs coincide. -/
theorem presentation_outputs_filter_independent (df : Dataset)
    (summary : Option (List (List String)))
    (rates : Option (List (String × ℚ)))
    (report now : String) (c1 c2 : FilterCriteria) :
    (mkOutputs df summary rates report now c1).sidebarTotalRecords =
      (mkOutputs df summary rates report now c2).sidebarTotalRecords ∧
    (mkOutputs df summary rates report now c1).sidebarColumnCount =
      (mkOutputs df summary rates report now c2).sidebarColumnCount ∧
    (mkOutputs df summary rates report now c1).sidebarDefaultRatePct =
      (mkOutputs df summary rates report now c2).sidebarDefaultRatePct ∧
    (mkOutputs df summary rates report now c1).sidebarLastUpdated =
      (mkOutputs df summary rates report now c2).sidebarLastUpdated ∧
    (mkOutputs df summary rates report now c1).keyInsightValues =
      (mkOutputs df summary rates report now c2).keyInsightValues ∧
    (mkOutputs df summary rates report now c1).downloadCleaned =
      (mkOutputs df summary rates report now c2).downloadCleaned :=
  ⟨rfl, rfl, rfl, rfl, rfl, rfl⟩

end LoanDashboard
